import Mathlib

/-!
Verification development for the CMAC 2.0 orchestrator
(`cmac/cmac_radar.py`, function `cmac`).

The locally authored logic of `cmac` is embedded shallowly:

* Python strings are `List Char` (`MStr`); `str.split(sep)` for a
  one-character separator is `splitOnChar`.
* The gate-id notes parser (source lines 90-93 and 140-144) is
  `parseNotes` / `catLookup`; a raised `IndexError` / `ValueError`
  is `Option.none`.
* The clutter override (source lines 84-89) is `clutterOverride`.
* The rain-rate derivation (source lines 157-176) is `rainRateField`.
* The metadata phase (source lines 186-226) is `computeMeta` /
  `radarMetaAfter`; the `RuntimeError` branch is `Except.error`.
* The site-altitude write (source line 47) is `setSiteAltitude`.
* `cmacRun` composes the locally authored steps, with the external
  pyart / cmac_processing results passed in as oracle parameters.
-/

namespace Cmac2

/-- Python strings, modelled as lists of characters. -/
abbrev MStr := List Char

/-- Python `s.split(sep)` for a one-character separator `sep`:
`"".split(sep) == [""]`, and every occurrence of `sep` separates. -/
def splitOnChar (sep : Char) : MStr → List MStr
  | [] => [[]]
  | c :: cs =>
    if c = sep then [] :: splitOnChar sep cs
    else
      match splitOnChar sep cs with
      | [] => [[c]]
      | h :: t => (c :: h) :: t

/-- Digit-string to number; `none` models Python `int` raising
`ValueError` on an empty or non-digit string. -/
def parseNat (s : MStr) : Option Nat :=
  if s = [] then none
  else
    s.foldl
      (fun acc c =>
        acc.bind (fun n => if c.isDigit then some (10 * n + (c.toNat - 48)) else none))
      (some 0)

/-- Python `int(s)` on the strings that occur in gate-id notes:
an optional sign followed by decimal digits; `none` models the raised
`ValueError`. -/
def pyInt (s : MStr) : Option Int :=
  match s with
  | '-' :: rest => (parseNat rest).map (fun n => -(n : Int))
  | '+' :: rest => (parseNat rest).map (fun n => (n : Int))
  | _ => (parseNat s).map (fun n => (n : Int))

/-- One `pair_str` of the notes string, as consumed by
`pair_str.split(':')[1]` and `int(pair_str.split(':')[0])`
(source lines 92-93): `none` models the raised `IndexError`
(no colon) or `ValueError` (non-numeric id). -/
def parsePair (p : MStr) : Option (MStr × Int) :=
  let parts := splitOnChar ':' p
  match parts.get? 1 with
  | none => none
  | some label =>
    match parts.get? 0 with
    | none => none
    | some idStr => (pyInt idStr).map (fun n => (label, n))

/-- The loop body over `notes.split(',')`: first failing segment
aborts the whole parse, as the raised exception does in Python. -/
def parsePairs : List MStr → Option (List (MStr × Int))
  | [] => some []
  | p :: ps =>
    match parsePair p with
    | none => none
    | some x => (parsePairs ps).map (fun xs => x :: xs)

/-- The notes-string parser of source lines 90-93 / 140-144, returning
the `cat_dict` bindings in iteration order. -/
def parseNotes (notes : MStr) : Option (List (MStr × Int)) :=
  parsePairs (splitOnChar ',' notes)

/-- Lookup in the `cat_dict` built by repeated `dict.update`:
the last binding of a key wins. -/
def catLookup (l : List (MStr × Int)) (k : MStr) : Option Int :=
  l.foldl (fun acc p => if p.1 = k then some p.2 else acc) none

/-! ## Metadata phase (source lines 186-226) -/

/-- A metadata value: Python string or tuple of strings, as they occur
in the default metadata block and in `config['metadata']`. -/
inductive MVal where
  | s : MStr → MVal
  | tup : List MStr → MVal
deriving DecidableEq

/-- A Python dict of metadata, in insertion order. -/
abbrev Meta := List (MStr × MVal)

/-- Whether a Python dict already has key `k`. -/
def hasKey {α : Type} (m : List (MStr × α)) (k : MStr) : Bool :=
  m.any (fun p => p.1 == k)

/-- Python `d[k] = v`: replace in place if the key exists, else append. -/
def pyDictSet {α : Type} (m : List (MStr × α)) (k : MStr) (v : α) :
    List (MStr × α) :=
  if hasKey m k then m.map (fun p => if p.1 = k then (k, v) else p)
  else m ++ [(k, v)]

/-- Python `d.update(m2)`: set each pair of `m2` in turn. -/
def pyDictUpdate {α : Type} (m m2 : List (MStr × α)) : List (MStr × α) :=
  m2.foldl (fun acc kv => pyDictSet acc kv.1 kv.2) m

/-- Python `d[k]`, as an `Option`. -/
def pyDictGet {α : Type} (m : List (MStr × α)) (k : MStr) : Option α :=
  (m.find? (fun p => p.1 == k)).map Prod.snd

/-- The built-in default metadata block of source lines 191-212. -/
def defaultMeta : Meta :=
  [("site_id".toList, .s ("sgp".toList)),
   ("data_level".toList, .s ("c1".toList)),
   ("comment".toList, .tup
     ["This is highly experimental and initial data. There are many".toList,
      "known and unknown issues. Please do not use before".toList,
      "contacting the Translator responsible scollis@anl.gov".toList]),
   ("attributions".toList, .tup
     ["This data is collected by the ARM Climate Research facility.".toList,
      "Radar system is operated by the radar engineering team".toList,
      "radar@arm.gov and the data is processed by the precipitation".toList,
      "radar products team. LP code courtesy of Scott Giangrande".toList,
      "BNL.".toList]),
   ("version".toList, .s ("2.0 lite".toList)),
   ("vap_name".toList, .s ("cmac".toList)),
   ("known_issues".toList, .tup
     ["False phidp jumps in insect regions. Still uses old".toList,
      "Giangrande code.".toList]),
   ("developers".toList, .s ("Robert Jackson, ANL. Zachary Sherman, ANL.".toList)),
   ("translator".toList, .s ("Scott Collis, ANL.".toList)),
   ("mentors".toList, .tup
     ["Nitin Bharadwaj, PNNL. Bradley Isom, PNNL.".toList,
      "Joseph Hardin, PNNL. Iosif Lindenmaier, PNNL.".toList])]

/-- The command line recorded at source lines 187-189:
`' ' + item` concatenated over `sys.argv`. -/
def commandLine (argv : List MStr) : MStr :=
  argv.foldl (fun acc item => acc ++ (" ".toList) ++ item) []

/-- Python `s.lower()` on the ASCII strings involved. -/
def pyLower (s : MStr) : MStr := s.map Char.toLower

/-- Python `s.endswith(suffix)`. -/
def pyEndsWith (s suffix : MStr) : Bool := suffix.isSuffixOf s

/-- The branch taken by the `meta_append` dispatch of source
lines 190-222. -/
inductive MetaSrc where
  | dflt
  | json (path : MStr)
  | config
  | err
deriving DecidableEq

/-- Which metadata source the dispatch selects:
`None` → default block; lowercased `.json` suffix → JSON file;
the exact string `config` → configuration block; else the
`RuntimeError`. -/
def metaBranch : Option MStr → MetaSrc
  | none => .dflt
  | some s =>
    if pyEndsWith (pyLower s) (".json".toList) then .json s
    else if s = "config".toList then .config
    else .err

/-- The metadata value computed by source lines 190-222;
`readJson` is the oracle for `json.load(open(path))`.
`Except.error` is the raised `RuntimeError`. -/
def computeMeta (metaAppend : Option MStr) (readJson : MStr → Meta)
    (configMeta : Meta) : Except Unit Meta :=
  match metaBranch metaAppend with
  | .dflt => .ok defaultMeta
  | .json p => .ok (readJson p)
  | .config => .ok configMeta
  | .err => .error ()

/-- Source lines 224-226: `radar.metadata.clear()`, then
`radar.metadata.update(meta)`, then
`radar.metadata['command_line'] = command_line`. -/
def attachMeta (meta : Meta) (argv : List MStr) : Meta :=
  pyDictSet (pyDictUpdate [] meta) ("command_line".toList)
    (.s (commandLine argv))

/-- The radar's metadata dict after the metadata phase: the raise at
source lines 220-222 happens before any mutation of `radar.metadata`,
so on the error branch the old dict survives unchanged. -/
def radarMetaAfter (metaAppend : Option MStr) (readJson : MStr → Meta)
    (configMeta : Meta) (argv : List MStr) (oldMeta : Meta) : Meta :=
  match computeMeta metaAppend readJson configMeta with
  | .ok meta => attachMeta meta argv
  | .error _ => oldMeta

/-! ## Gate-id field and the clutter override (source lines 84-89) -/

/-- The slice of a gate-id field dict used by the override: the integer
category grid, the notes string, and the declared `valid_max`.
`ι` indexes the (ray, gate) grid. -/
structure GateField (ι : Type) where
  data : ι → Int
  notes : MStr
  valid_max : Int

/-- Source lines 84-89: `gate_id.data[clutter == 1] = 5`,
`notes += ',5:clutter'`, `valid_max = 5`. -/
def clutterOverride {ι : Type} (g : GateField ι) (clutterData : ι → Int) :
    GateField ι where
  data := fun i => if clutterData i = 1 then 5 else g.data i
  notes := g.notes ++ (",5:clutter".toList)
  valid_max := 5

/-- The maximum category id of a parsed notes string. -/
def maxId (notes : MStr) : Option Int :=
  (parseNotes notes).bind (fun l =>
    match l.map Prod.snd with
    | [] => none
    | x :: xs => some (xs.foldl max x))

/-- A classifier output whose maximum category id is 2, not 4. -/
def fuzzThree : GateField Unit where
  data := fun _ => 0
  notes := "0:rain,1:snow,2:melting".toList
  valid_max := 2

/-- A clutter grid flagging every gate. -/
def clutterOne : Unit → Int := fun _ => 1

/-- The standard five-category classifier output, maximum id 4. -/
def fuzzFive : GateField Unit where
  data := fun _ => 0
  notes := "0:multi_trip,1:rain,2:snow,3:no_scatter,4:melting".toList
  valid_max := 4

/-- The parsed category bindings of `fuzzFive`. -/
def fuzzFiveCats : List (MStr × Int) :=
  [("multi_trip".toList, 0), ("rain".toList, 1), ("snow".toList, 2),
   ("no_scatter".toList, 3), ("melting".toList, 4)]

/-! ## Radar scalar attributes (source line 47) -/

/-- The scalar attributes of the radar object that `cmac` touches:
`altitude['data'][0]` and the start time `time['data'][0]`. -/
structure RadarScalars where
  altitude : ℝ
  startTime : ℝ

/-- Source line 47: `radar.altitude['data'][0] = config['site_alt']`. -/
def setSiteAltitude (r : RadarScalars) (siteAlt : ℝ) : RadarScalars :=
  { r with altitude := siteAlt }

/-! ## Rain-rate derivation (source lines 157-176) -/

/-- The slice of the `rain_rate_A` field dict the claims concern. -/
structure RRField (ι : Type) where
  data : ι → ℝ
  valid_min : ℝ
  valid_max : ℝ

/-- Source lines 157-172: `R = 51.3 * A ** 0.81` on the
specific-attenuation data, `valid_min = 0.0`, `valid_max = 400.0`, and
`data[np.where(reflectivity.mask)] = 0.0`. -/
noncomputable def rainRateField {ι : Type} (specAtData : ι → ℝ)
    (reflMask : ι → Bool) : RRField ι where
  data := fun i => if reflMask i then 0 else 51.3 * specAtData i ^ (0.81 : ℝ)
  valid_min := 0.0
  valid_max := 400.0

/-! ## The fields dict between the two notes parses
(source lines 94-139) -/

/-- A generic radar field as stored in `radar.fields`: a data grid and
a notes string (empty for fields that carry none). -/
structure PField (ι : Type) where
  data : ι → ℝ
  notes : MStr := []

/-- The `radar.fields` dict. -/
abbrev FieldsDict (ι : Type) := List (MStr × PField ι)

/-- The `add_field` calls between the first notes parse (source
lines 90-93) and the second one (source lines 140-144):
`corrected_velocity` (line 108), the four phase fields
(lines 121-124), and the two attenuation fields (lines 151-152).
The external library computes the field values; the orchestrator only
inserts them under these names. -/
def addMidFields {ι : Type} (fields : FieldsDict ι)
    (corrVel phidp phidpFilt kdp kdpFilt specAt corZ : PField ι) :
    FieldsDict ι :=
  pyDictSet (pyDictSet (pyDictSet (pyDictSet (pyDictSet (pyDictSet (pyDictSet
    fields ("corrected_velocity".toList) corrVel)
    ("corrected_differential_phase".toList) phidp)
    ("filtered_corrected_differential_phase".toList) phidpFilt)
    ("corrected_specific_diff_phase".toList) kdp)
    ("filtered_corrected_specific_diff_phase".toList) kdpFilt)
    ("specific_attenuation".toList) specAt)
    ("attenuation_corrected_reflectivity".toList) corZ

/-! ## The composed run (whole `cmac` call) -/

/-- The per-site configuration slice `cmac` reads directly. -/
structure Config where
  site_alt : ℝ
  metadata : Meta

/-- The input radar slice the locally authored steps consume. -/
structure RadarIn (ι : Type) where
  scalars : RadarScalars
  clutterData : ι → Int
  reflMask : ι → Bool
  metadata : Meta

/-- Results of the delegated external-library calls, passed in as
oracles: the fuzzy-logic gate classification, the specific-attenuation
grid returned by the attenuation correction, and the JSON loader. -/
structure Oracles (ι : Type) where
  fuzzGateId : GateField ι
  specAtData : ι → ℝ
  readJson : MStr → Meta

/-- The outputs of a completed `cmac` run that the claims observe. -/
structure CmacOut (ι : Type) where
  altitude : ℝ
  gateId : GateField ι
  rainRate : RRField ι
  metadata : Meta

/-- The locally authored steps of `cmac`, composed in source order:
altitude write (line 47), clutter override (84-89), the two notes
parses and the category lookups (90-93, 101-103, 140-148), the
rain-gate zeroing of specific attenuation (149), the rain-rate
derivation (157-176), and the metadata phase (186-226). `none` models
a raised exception; the `verbose` flag only drives printing. -/
noncomputable def cmacRun {ι : Type} (radar : RadarIn ι) (config : Config)
    (orc : Oracles ι) (metaAppend : Option MStr) (verbose : Bool)
    (argv : List MStr) : Option (CmacOut ι) :=
  let scalars := setSiteAltitude radar.scalars config.site_alt
  let gateId := clutterOverride orc.fuzzGateId radar.clutterData
  match parseNotes gateId.notes with
  | none => none
  | some cat1 =>
    match catLookup cat1 ("rain".toList), catLookup cat1 ("melting".toList),
        catLookup cat1 ("snow".toList) with
    | some _, some _, some _ =>
      match parseNotes gateId.notes with
      | none => none
      | some cat2 =>
        match catLookup cat2 ("rain".toList) with
        | none => none
        | some rainId =>
          let specZeroed : ι → ℝ := fun i =>
            if gateId.data i = rainId then orc.specAtData i else 0
          let rainRate := rainRateField specZeroed radar.reflMask
          match computeMeta metaAppend orc.readJson config.metadata with
          | .ok meta =>
            some { altitude := scalars.altitude, gateId := gateId,
                   rainRate := rainRate, metadata := attachMeta meta argv }
          | .error _ => none
    | _, _, _ => none

/-- A concrete one-gate input radar. -/
noncomputable def radarIn0 : RadarIn Unit where
  scalars := { altitude := 100, startTime := 0 }
  clutterData := fun _ => 0
  reflMask := fun _ => false
  metadata := []

/-- A concrete configuration. -/
noncomputable def config0 : Config where
  site_alt := 300
  metadata := []

/-- Concrete oracle results for the external calls. -/
noncomputable def oracles0 : Oracles Unit where
  fuzzGateId :=
    { data := fun _ => 1, notes := "0:rain,1:snow,2:melting".toList,
      valid_max := 2 }
  specAtData := fun _ => 1
  readJson := fun _ => []

/-! ## Theorems -/

lemma splitOnChar_ne_nil (sep : Char) : ∀ s : MStr, splitOnChar sep s ≠ []
  | [] => by simp [splitOnChar]
  | c :: cs => by
    simp only [splitOnChar]
    split
    · simp
    · split <;> simp

lemma splitOnChar_cons (sep c : Char) (cs : MStr) :
    splitOnChar sep (c :: cs) =
      if c = sep then [] :: splitOnChar sep cs
      else
        match splitOnChar sep cs with
        | [] => [[c]]
        | h :: t => (c :: h) :: t := rfl

lemma splitOnChar_append_sep (sep : Char) (xs ys : MStr) :
    splitOnChar sep (xs ++ sep :: ys) = splitOnChar sep xs ++ splitOnChar sep ys := by
  induction xs with
  | nil =>
    show splitOnChar sep (sep :: ys) = [[]] ++ splitOnChar sep ys
    rw [splitOnChar_cons, if_pos rfl]
    rfl
  | cons c cs ih =>
    rw [List.cons_append, splitOnChar_cons sep c (cs ++ sep :: ys),
        splitOnChar_cons sep c cs]
    by_cases hc : c = sep
    · simp only [if_pos hc, ih]
      rfl
    · simp only [if_neg hc, ih]
      cases h : splitOnChar sep cs with
      | nil => exact absurd h (splitOnChar_ne_nil sep cs)
      | cons a t => rfl

lemma no_colon_split (p : MStr) (h : ∀ ch ∈ p, ch ≠ ':') :
    splitOnChar ':' p = [p] := by
  induction p with
  | nil => rfl
  | cons c cs ih =>
    have hc : c ≠ ':' := h c (List.mem_cons_self c cs)
    have ihs := ih (fun ch hm => h ch (List.mem_cons_of_mem c hm))
    simp only [splitOnChar, if_neg hc, ihs]

lemma parsePair_no_colon (p : MStr) (h : ∀ ch ∈ p, ch ≠ ':') :
    parsePair p = none := by
  simp [parsePair, no_colon_split p h]

lemma parsePairs_mem_none {l : List MStr} {p : MStr}
    (hm : p ∈ l) (hp : parsePair p = none) : parsePairs l = none := by
  induction l with
  | nil => cases hm
  | cons q qs ih =>
    rcases List.mem_cons.mp hm with h1 | h2
    · subst h1
      simp [parsePairs, hp]
    · simp only [parsePairs]
      cases hq : parsePair q with
      | none => rfl
      | some x => simp [ih h2]

lemma parsePairs_cons (p : MStr) (ps : List MStr) :
    parsePairs (p :: ps) =
      match parsePair p with
      | none => none
      | some x => (parsePairs ps).map (fun xs => x :: xs) := rfl

lemma parsePairs_append (l1 l2 : List MStr) :
    parsePairs (l1 ++ l2) =
      (parsePairs l1).bind (fun a => (parsePairs l2).map (fun b => a ++ b)) := by
  induction l1 with
  | nil => cases h : parsePairs l2 <;> simp [parsePairs, h]
  | cons p ps ih =>
    rw [List.cons_append, parsePairs_cons, parsePairs_cons, ih]
    cases parsePair p with
    | none => rfl
    | some x =>
      cases parsePairs ps with
      | none => rfl
      | some a =>
        cases parsePairs l2 with
        | none => rfl
        | some b => simp

/-- C3: the notes parser maps `"0:rain,1:snow,2:melting,3:clutter"` to
the bindings rain↦0, snow↦1, melting↦2, clutter↦3 (in dict order and
under dict lookup), and any comma-separated segment without a colon
makes the whole parse fail deterministically (the `IndexError` of
`split(':')[1]`), never producing a mapping. -/
theorem notes_parse_example_and_missing_colon :
    (parseNotes ("0:rain,1:snow,2:melting,3:clutter".toList) =
      some [("rain".toList, (0 : Int)), ("snow".toList, 1),
            ("melting".toList, 2), ("clutter".toList, 3)] ∧
     (parseNotes ("0:rain,1:snow,2:melting,3:clutter".toList)).map
        (fun l => (catLookup l ("rain".toList), catLookup l ("snow".toList),
                   catLookup l ("melting".toList), catLookup l ("clutter".toList))) =
       some (some 0, some 1, some 2, some 3)) ∧
    ∀ notes seg : MStr, seg ∈ splitOnChar ',' notes →
      (∀ ch ∈ seg, ch ≠ ':') → parseNotes notes = none := by
  refine ⟨⟨by decide, by decide⟩, ?_⟩
  intro notes seg hm hnc
  exact parsePairs_mem_none hm (parsePair_no_colon seg hnc)

/-- Witness for C3 at the concrete malformed notes string `"0:rain,ab"`,
whose second segment has no colon. -/
theorem notes_parse_missing_colon_witness :
    ("ab".toList ∈ splitOnChar ',' ("0:rain,ab".toList)) ∧
    (∀ ch ∈ ("ab".toList), ch ≠ ':') ∧
    parseNotes ("0:rain,ab".toList) = none :=
  ⟨by decide, by decide,
    notes_parse_example_and_missing_colon.2 ("0:rain,ab".toList) ("ab".toList)
      (by decide) (by decide)⟩

/-- C4: for a `meta_append` string that is neither (case-insensitively)
`.json`-suffixed nor exactly `config`, the dispatch raises the
`RuntimeError` and the radar's metadata dict is exactly what it was
before the call. -/
theorem meta_invalid_source_error (s : MStr) (readJson : MStr → Meta)
    (configMeta : Meta) (argv : List MStr) (oldMeta : Meta)
    (hjson : pyEndsWith (pyLower s) (".json".toList) = false)
    (hconfig : s ≠ "config".toList) :
    computeMeta (some s) readJson configMeta = .error () ∧
    radarMetaAfter (some s) readJson configMeta argv oldMeta = oldMeta := by
  have hb : metaBranch (some s) = .err := by
    show (if pyEndsWith (pyLower s) (".json".toList) = true then MetaSrc.json s
          else if s = "config".toList then MetaSrc.config else MetaSrc.err) =
        MetaSrc.err
    rw [hjson]
    simp only [Bool.false_eq_true, if_false]
    exact if_neg hconfig
  have hc : computeMeta (some s) readJson configMeta = .error () := by
    unfold computeMeta
    rw [hb]
  refine ⟨hc, ?_⟩
  unfold radarMetaAfter
  rw [hc]

/-- Witness for C4 at the concrete invalid specifier `"bogus"`, with an
arbitrary prior metadata dict. -/
theorem meta_invalid_source_error_witness :
    (pyEndsWith (pyLower ("bogus".toList)) (".json".toList) = false ∧
     ("bogus".toList : MStr) ≠ "config".toList) ∧
    (computeMeta (some ("bogus".toList)) (fun _ => []) [] = .error () ∧
     radarMetaAfter (some ("bogus".toList)) (fun _ => []) [] []
       [("site_id".toList, .s ("nsa".toList))] =
       [("site_id".toList, .s ("nsa".toList))]) :=
  ⟨⟨by decide, by decide⟩,
   meta_invalid_source_error ("bogus".toList) (fun _ => []) [] []
     [("site_id".toList, .s ("nsa".toList))] (by decide) (by decide)⟩

/-- C5: with `meta_append = None` the resulting metadata dict is exactly
the built-in default block followed by the one extra key
`command_line` holding the recorded command line, whatever metadata the
radar carried before; `command_line` is not a key of the default
block. -/
theorem meta_default_replaces (readJson : MStr → Meta) (configMeta : Meta)
    (argv : List MStr) (oldMeta : Meta) :
    radarMetaAfter none readJson configMeta argv oldMeta =
      defaultMeta ++ [("command_line".toList, MVal.s (commandLine argv))] ∧
    ("command_line".toList ∉ defaultMeta.map Prod.fst) := by
  constructor
  · show attachMeta defaultMeta argv = _
    have h1 : pyDictUpdate ([] : Meta) defaultMeta = defaultMeta := by decide
    have h2 : hasKey defaultMeta ("command_line".toList) = false := by decide
    unfold attachMeta pyDictSet
    rw [h1, h2]
    simp
  · decide

/-- C10: the JSON-path test lowercases before checking the `.json`
suffix (so it is case-insensitive), while the `config` sentinel
comparison is by exact string equality: `META.JSON` selects the JSON
branch and `CONFIG` raises. -/
theorem json_suffix_case_insensitive_config_case_sensitive :
    (∀ s : MStr, pyEndsWith (pyLower s) (".json".toList) = true →
      metaBranch (some s) = MetaSrc.json s) ∧
    (∀ s : MStr, pyEndsWith (pyLower s) (".json".toList) = false →
      (metaBranch (some s) = MetaSrc.config ↔ s = "config".toList)) ∧
    metaBranch (some ("META.JSON".toList)) = MetaSrc.json ("META.JSON".toList) ∧
    metaBranch (some ("CONFIG".toList)) = MetaSrc.err := by
  refine ⟨?_, ?_, by decide, by decide⟩
  · intro s h
    show (if pyEndsWith (pyLower s) (".json".toList) = true then MetaSrc.json s
          else if s = "config".toList then MetaSrc.config else MetaSrc.err) =
        MetaSrc.json s
    rw [h]
    simp
  · intro s h
    show (if pyEndsWith (pyLower s) (".json".toList) = true then MetaSrc.json s
          else if s = "config".toList then MetaSrc.config else MetaSrc.err) =
          MetaSrc.config ↔ s = "config".toList
    rw [h]
    simp only [Bool.false_eq_true, if_false]
    by_cases hs : s = "config".toList <;> simp [hs]

/-- Witness for C10 at the mixed-case path `"a.JsOn"`. -/
theorem json_suffix_case_insensitive_witness :
    pyEndsWith (pyLower ("a.JsOn".toList)) (".json".toList) = true ∧
    metaBranch (some ("a.JsOn".toList)) = MetaSrc.json ("a.JsOn".toList) :=
  ⟨by decide,
   json_suffix_case_insensitive_config_case_sensitive.1 ("a.JsOn".toList)
     (by decide)⟩

/-- C2 counterexample: on a classifier output whose maximum id is 2,
the override still appends the clutter category with id 5 and sets
`valid_max` to 5, and 5 is not one greater than 2. -/
theorem clutter_id_not_max_plus_one_cex :
    (parseNotes (clutterOverride fuzzThree clutterOne).notes).map
        (fun l => catLookup l ("clutter".toList)) = some (some 5) ∧
    (clutterOverride fuzzThree clutterOne).valid_max = 5 ∧
    maxId fuzzThree.notes = some 2 ∧
    ¬((5 : Int) = 2 + 1) :=
  ⟨by decide, by decide, by decide, by decide⟩

/-- C2 amended: the override appends the clutter category with the
constant id 5 and sets the field's `valid_max` to that same 5,
whatever bindings the classifier produced; 5 agrees with
(max classifier id + 1) whenever the classifier's maximum id is 4
(as with the standard five-category output). -/
theorem clutter_override_constant_five {ι : Type} (g : GateField ι)
    (cd : ι → Int) (l : List (MStr × Int))
    (hl : parseNotes g.notes = some l) :
    (clutterOverride g cd).valid_max = 5 ∧
    parseNotes (clutterOverride g cd).notes =
      some (l ++ [("clutter".toList, (5 : Int))]) ∧
    (maxId g.notes = some 4 →
      (maxId g.notes).map (fun m => m + 1) =
        some ((clutterOverride g cd).valid_max)) := by
  refine ⟨rfl, ?_, ?_⟩
  · show parsePairs (splitOnChar ',' (g.notes ++ (",5:clutter".toList))) = _
    have e : (",5:clutter".toList : MStr) = ',' :: ("5:clutter".toList) := rfl
    rw [e, splitOnChar_append_sep, parsePairs_append]
    have h2 : parsePairs (splitOnChar ',' ("5:clutter".toList)) =
        some [("clutter".toList, (5 : Int))] := by decide
    have h3 : parsePairs (splitOnChar ',' g.notes) = some l := hl
    rw [h2, h3]
    rfl
  · intro hm4
    rw [hm4]
    rfl

/-- Witness for C2's amended statement at the standard five-category
classifier output. -/
theorem clutter_override_constant_five_witness :
    parseNotes fuzzFive.notes = some fuzzFiveCats ∧
    ((clutterOverride fuzzFive clutterOne).valid_max = 5 ∧
     parseNotes (clutterOverride fuzzFive clutterOne).notes =
       some (fuzzFiveCats ++ [("clutter".toList, (5 : Int))]) ∧
     (maxId fuzzFive.notes = some 4 →
       (maxId fuzzFive.notes).map (fun m => m + 1) =
         some ((clutterOverride fuzzFive clutterOne).valid_max))) :=
  ⟨by decide,
   clutter_override_constant_five fuzzFive clutterOne fuzzFiveCats (by decide)⟩

/-- C6 counterexample: `cmac` writes the altitude scalar at source
line 47, so a radar entering with altitude 100 under a configuration
with `site_alt` 300 leaves with altitude 300, not its prior 100. -/
theorem altitude_written_cex :
    (setSiteAltitude { altitude := 100, startTime := 0 } 300).altitude = 300 ∧
    ((300 : ℝ) ≠ 100) ∧
    (RadarScalars.altitude { altitude := 100, startTime := 0 }) = 100 :=
  ⟨rfl, by norm_num, rfl⟩

/-- C6 amended: the altitude scalar is written (it becomes the
configuration's `site_alt`), while the start time is only read and is
left unchanged. -/
theorem altitude_set_from_config (r : RadarScalars) (siteAlt : ℝ) :
    (setSiteAltitude r siteAlt).altitude = siteAlt ∧
    (setSiteAltitude r siteAlt).startTime = r.startTime :=
  ⟨rfl, rfl⟩

lemma powerlaw_1024_gt_400 : (400 : ℝ) < 51.3 * (1024 : ℝ) ^ (0.81 : ℝ) := by
  have h32 : (1024 : ℝ) ^ ((1 : ℝ) / 2) = 32 := by
    have h1 : (1024 : ℝ) = (32 : ℝ) ^ ((2 : ℕ) : ℝ) := by
      rw [Real.rpow_natCast]
      norm_num
    rw [h1, ← Real.rpow_mul (by norm_num : (0 : ℝ) ≤ 32),
        show ((2 : ℕ) : ℝ) * ((1 : ℝ) / 2) = 1 by norm_num, Real.rpow_one]
  have hmono : (1024 : ℝ) ^ ((1 : ℝ) / 2) ≤ (1024 : ℝ) ^ (0.81 : ℝ) :=
    Real.rpow_le_rpow_of_exponent_le (by norm_num) (by norm_num)
  have h2 : (32 : ℝ) ≤ (1024 : ℝ) ^ (0.81 : ℝ) := h32 ▸ hmono
  nlinarith [h2]

/-- C1: for every specific-attenuation value `A ≥ 0`, the stored
`rain_rate_A` value is exactly `51.3 * A ** 0.81`, except that a gate
whose reflectivity is masked stores `0.0` instead. -/
theorem rain_rate_powerlaw_and_mask {ι : Type} (specAtData : ι → ℝ)
    (reflMask : ι → Bool) (i : ι) (hA : 0 ≤ specAtData i) :
    (reflMask i = false →
      (rainRateField specAtData reflMask).data i =
        51.3 * specAtData i ^ (0.81 : ℝ)) ∧
    (reflMask i = true →
      (rainRateField specAtData reflMask).data i = 0) := by
  constructor <;> intro hm <;> simp [rainRateField, hm]

/-- Witness for C1 at a one-gate radar with `A = 2` and an unmasked
reflectivity gate, and at the same radar with the gate masked. -/
theorem rain_rate_powerlaw_and_mask_witness :
    ((0 : ℝ) ≤ 2 ∧
     ((fun _ : Unit => false) () = false →
       (rainRateField (fun _ : Unit => (2 : ℝ)) (fun _ => false)).data () =
         51.3 * (2 : ℝ) ^ (0.81 : ℝ))) ∧
    ((0 : ℝ) ≤ 2 ∧
     ((fun _ : Unit => true) () = true →
       (rainRateField (fun _ : Unit => (2 : ℝ)) (fun _ => true)).data () = 0)) :=
  ⟨⟨by norm_num,
    (rain_rate_powerlaw_and_mask (fun _ : Unit => (2 : ℝ)) (fun _ => false) ()
      (by norm_num)).1⟩,
   ⟨by norm_num,
    (rain_rate_powerlaw_and_mask (fun _ : Unit => (2 : ℝ)) (fun _ => true) ()
      (by norm_num)).2⟩⟩

/-- C8 counterexample: at a one-gate radar whose specific attenuation is
1024 (so the power law exceeds 400) but whose reflectivity gate is
masked, the stored value is 0.0, not the unclipped power-law result —
so the claim's unconditional quantification over inputs fails. -/
theorem rain_rate_unclamped_cex :
    (400 : ℝ) < 51.3 * (1024 : ℝ) ^ (0.81 : ℝ) ∧
    (rainRateField (fun _ : Unit => (1024 : ℝ)) (fun _ => true)).data () = 0 ∧
    (0 : ℝ) ≠ 51.3 * (1024 : ℝ) ^ (0.81 : ℝ) := by
  refine ⟨powerlaw_1024_gt_400, rfl, ?_⟩
  intro h
  have h2 := powerlaw_1024_gt_400
  rw [← h] at h2
  norm_num at h2

/-- C8 amended: `rain_rate_A` declares `valid_min 0.0` and
`valid_max 400.0`, and at any gate whose reflectivity is not masked
and where `51.3 * A ** 0.81 > 400`, the stored value is the unclipped
power-law result, strictly above the declared `valid_max` — nothing
clamps the data numerically. -/
theorem rain_rate_unclamped_above_valid_max {ι : Type}
    (specAtData : ι → ℝ) (reflMask : ι → Bool) (i : ι)
    (hmask : reflMask i = false)
    (hgt : 400 < 51.3 * specAtData i ^ (0.81 : ℝ)) :
    (rainRateField specAtData reflMask).valid_min = 0 ∧
    (rainRateField specAtData reflMask).valid_max = 400 ∧
    (rainRateField specAtData reflMask).data i =
      51.3 * specAtData i ^ (0.81 : ℝ) ∧
    (rainRateField specAtData reflMask).valid_max <
      (rainRateField specAtData reflMask).data i := by
  have hdata : (rainRateField specAtData reflMask).data i =
      51.3 * specAtData i ^ (0.81 : ℝ) := by
    simp [rainRateField, hmask]
  refine ⟨by norm_num [rainRateField], by norm_num [rainRateField], hdata, ?_⟩
  rw [hdata]
  calc (rainRateField specAtData reflMask).valid_max = 400 := by
        norm_num [rainRateField]
    _ < 51.3 * specAtData i ^ (0.81 : ℝ) := hgt

/-- Witness for C8's amended statement at an unmasked one-gate radar
with `A = 1024`. -/
theorem rain_rate_unclamped_above_valid_max_witness :
    ((fun _ : Unit => false) () = false ∧
     (400 : ℝ) < 51.3 * ((fun _ : Unit => (1024 : ℝ)) ()) ^ (0.81 : ℝ)) ∧
    ((rainRateField (fun _ : Unit => (1024 : ℝ)) (fun _ => false)).valid_min = 0 ∧
     (rainRateField (fun _ : Unit => (1024 : ℝ)) (fun _ => false)).valid_max = 400 ∧
     (rainRateField (fun _ : Unit => (1024 : ℝ)) (fun _ => false)).data () =
       51.3 * ((fun _ : Unit => (1024 : ℝ)) ()) ^ (0.81 : ℝ) ∧
     (rainRateField (fun _ : Unit => (1024 : ℝ)) (fun _ => false)).valid_max <
       (rainRateField (fun _ : Unit => (1024 : ℝ)) (fun _ => false)).data ()) :=
  ⟨⟨rfl, powerlaw_1024_gt_400⟩,
   rain_rate_unclamped_above_valid_max (fun _ : Unit => (1024 : ℝ))
     (fun _ => false) () rfl powerlaw_1024_gt_400⟩

lemma pyDictGet_append_single_ne {α : Type} (m : List (MStr × α))
    (k j : MStr) (v : α) (h : (j == k) = false) :
    pyDictGet (m ++ [(j, v)]) k = pyDictGet m k := by
  induction m with
  | nil => simp [pyDictGet, List.find?, h]
  | cons p t ih =>
    unfold pyDictGet at ih ⊢
    cases hp : (p.1 == k) with
    | true => simp [List.find?, hp]
    | false => simpa [List.find?, hp] using ih

lemma pyDictGet_map_replace_ne {α : Type} (m : List (MStr × α))
    (k j : MStr) (v : α) (h : (j == k) = false) :
    pyDictGet (m.map (fun p => if p.1 = j then (j, v) else p)) k =
      pyDictGet m k := by
  induction m with
  | nil => rfl
  | cons p t ih =>
    unfold pyDictGet at ih ⊢
    by_cases hp : p.1 = j
    · have hpk : (p.1 == k) = false := by rw [hp]; exact h
      simpa [List.find?, hp, hpk, h, -List.find?_map] using ih
    · cases hpk : (p.1 == k) with
      | true => simp [List.find?, hp, hpk, -List.find?_map]
      | false => simpa [List.find?, hp, hpk, -List.find?_map] using ih

lemma pyDictGet_set_ne {α : Type} (m : List (MStr × α)) (k j : MStr)
    (v : α) (h : (j == k) = false) :
    pyDictGet (pyDictSet m j v) k = pyDictGet m k := by
  unfold pyDictSet
  by_cases hk : hasKey m j = true
  · rw [if_pos hk]
    exact pyDictGet_map_replace_ne m k j v h
  · rw [if_neg hk]
    exact pyDictGet_append_single_ne m k j v h

/-- C9: none of the pipeline steps between the two notes parses touches
the `gate_id` entry, so the notes string — and hence the parsed
label-to-id mapping — is identical at both parse points, for every
fields dict and every result the external library returns. -/
theorem mid_pipeline_preserves_gate_id_notes {ι : Type}
    (fields : FieldsDict ι)
    (corrVel phidp phidpFilt kdp kdpFilt specAt corZ : PField ι) :
    pyDictGet (addMidFields fields corrVel phidp phidpFilt kdp kdpFilt
        specAt corZ) ("gate_id".toList) =
      pyDictGet fields ("gate_id".toList) ∧
    (pyDictGet (addMidFields fields corrVel phidp phidpFilt kdp kdpFilt
        specAt corZ) ("gate_id".toList)).map (fun fl => parseNotes fl.notes) =
      (pyDictGet fields ("gate_id".toList)).map
        (fun fl => parseNotes fl.notes) := by
  have h1 : pyDictGet (addMidFields fields corrVel phidp phidpFilt kdp
      kdpFilt specAt corZ) ("gate_id".toList) =
      pyDictGet fields ("gate_id".toList) := by
    unfold addMidFields
    rw [pyDictGet_set_ne _ _ _ _ (by decide),
        pyDictGet_set_ne _ _ _ _ (by decide),
        pyDictGet_set_ne _ _ _ _ (by decide),
        pyDictGet_set_ne _ _ _ _ (by decide),
        pyDictGet_set_ne _ _ _ _ (by decide),
        pyDictGet_set_ne _ _ _ _ (by decide),
        pyDictGet_set_ne _ _ _ _ (by decide)]
  exact ⟨h1, by rw [h1]⟩

/-- C7 counterexample: two `cmac` runs agreeing on the radar volume,
sounding/oracle results, configuration, `meta_append` and `verbose`
arguments, but launched with different process command lines
(`sys.argv`), produce different output metadata — the recorded
`command_line` key differs. -/
theorem cmac_output_depends_on_argv_cex :
    (cmacRun radarIn0 config0 oracles0 none true ["p".toList]).map
        CmacOut.metadata ≠
      (cmacRun radarIn0 config0 oracles0 none true ["q".toList]).map
        CmacOut.metadata := by decide

/-- C7 amended: `cmac` is deterministic once the process command line
`sys.argv` is fixed along with the radar, the external-library
results, the configuration and `meta_append`; the `verbose` flag never
affects the output. -/
theorem cmac_deterministic_given_argv {ι : Type} (radar : RadarIn ι)
    (config : Config) (orc : Oracles ι) (metaAppend : Option MStr)
    (v1 v2 : Bool) (argv1 argv2 : List MStr) (hargv : argv1 = argv2) :
    cmacRun radar config orc metaAppend v1 argv1 =
      cmacRun radar config orc metaAppend v2 argv2 := by
  rw [hargv]
  rfl

/-- Witness for C7's amended statement at the concrete run, with the
two verbose settings. -/
theorem cmac_deterministic_given_argv_witness :
    (["p".toList] : List MStr) = ["p".toList] ∧
    cmacRun radarIn0 config0 oracles0 none true ["p".toList] =
      cmacRun radarIn0 config0 oracles0 none false ["p".toList] :=
  ⟨rfl, cmac_deterministic_given_argv radarIn0 config0 oracles0 none
    true false ["p".toList] ["p".toList] rfl⟩

end Cmac2

